import Mathlib

set_option maxRecDepth 2048

/-!
Shallow embedding of the chat request broker of the digital-field-assistant
repository: the provider clients from `src/lib/aiFoundry.ts`
(`completeChatWithAiFoundry`, `completeChatWithAgent`, `completeChatAuto`,
`buildDemoResponse`, `parseOptionalNumber`) and the chat API route handler
(`POST`, `applySystemPrompt`, `hasSystemRole`, message sanitization).

Modelling conventions:
* a process environment variable of type `string | undefined` is an
  `Option String`; JS truthiness (`!v`) is `truthy` below (unset and the
  empty string are falsy);
* fallible TypeScript code (`throw` / `try` / `catch`) is `Except String`,
  the `String` being the thrown `Error`'s message;
* the network is an oracle passed in as a function: the broker never
  inspects it beyond the response value it yields;
* the JS `Number` builtin is an oracle `toNumber : String -> Option Int`
  where `none` models a `NaN` result (`Number.isNaN`); no claim depends on
  the concrete numeric semantics, only on valid/invalid;
* JS `string.slice(0, n)` is `String.take n` (counting characters), and JS
  `trim` is `jsTrim` below, an executable both-ends whitespace strip (the
  library `String.trim` is defined by well-founded recursion and does not
  evaluate inside proofs).
-/

/-- Model of the JS `String.prototype.trim` method: drop whitespace from
both ends. -/
def jsTrim (s : String) : String :=
  ⟨((s.data.dropWhile Char.isWhitespace).reverse.dropWhile Char.isWhitespace).reverse⟩

/-- Role of a chat turn, the `role` field of `AzureChatMessage` in
`aiFoundry.ts` (one of `"system" | "user" | "assistant"`). -/
inductive Role where
  | system
  | user
  | assistant
deriving DecidableEq, Repr

/-- The `AzureChatMessage` type of `aiFoundry.ts`. -/
structure AzureChatMessage where
  role : Role
  content : String
deriving DecidableEq, Repr

/-- The `usage` field of `AzureChatResult` in `aiFoundry.ts`: legacy
(`input_tokens`/`output_tokens`) and canonical
(`prompt_tokens`/`completion_tokens`) counters plus `total_tokens`. -/
structure Usage where
  input_tokens : Option Nat
  output_tokens : Option Nat
  total_tokens : Option Nat
  prompt_tokens : Option Nat
  completion_tokens : Option Nat
deriving DecidableEq, Repr

/-- The `AzureChatResult` type of `aiFoundry.ts`. -/
structure AzureChatResult where
  content : String
  warnings : Option (List String)
  usage : Option Usage
deriving DecidableEq, Repr

/-- Process environment variables read by the broker. Only the variables
that influence control flow or request payloads appear; variables used
solely to assemble the upstream URL (endpoint normalization, API version)
are kept abstract because the URL text is outside every claim. -/
structure Env where
  AI_FOUNDRY_ENDPOINT : Option String
  AI_FOUNDRY_API_KEY : Option String
  AI_FOUNDRY_CHAT_DEPLOYMENT : Option String
  AI_FOUNDRY_DEPLOYMENT : Option String
  AI_FOUNDRY_AGENT_ID : Option String
  AI_FOUNDRY_SYSTEM_PROMPT : Option String
  AI_FOUNDRY_TEMPERATURE : Option String
  AI_FOUNDRY_TOP_P : Option String
deriving Repr

/-- JS truthiness of a `string | undefined` value: `undefined` and the
empty string are falsy, every other string is truthy. -/
def truthy : Option String → Bool
  | none => false
  | some s => if s = "" then false else true

/-- The `deployment` binding of `completeChatWithAiFoundry`:
`process.env.AI_FOUNDRY_CHAT_DEPLOYMENT ?? process.env.AI_FOUNDRY_DEPLOYMENT`
(nullish coalescing: only `undefined` falls through, an empty string does
not). -/
def envDeployment (env : Env) : Option String :=
  match env.AI_FOUNDRY_CHAT_DEPLOYMENT with
  | some s => some s
  | none => env.AI_FOUNDRY_DEPLOYMENT

/-- Negation of the guard `!endpoint || !apiKey || !deployment` of
`completeChatWithAiFoundry` (direct mode). -/
def directConfigured (env : Env) : Bool :=
  truthy env.AI_FOUNDRY_ENDPOINT && truthy env.AI_FOUNDRY_API_KEY &&
    truthy (envDeployment env)

/-- Negation of the guard `!endpoint || !apiKey || !agentId` of
`completeChatWithAgent` (agent mode). -/
def agentConfigured (env : Env) : Bool :=
  truthy env.AI_FOUNDRY_ENDPOINT && truthy env.AI_FOUNDRY_API_KEY &&
    truthy env.AI_FOUNDRY_AGENT_ID

/-- The `latestUserMessage` binding of `buildDemoResponse`:
`[...messages].reverse().find((message) => message.role === "user")`. -/
def latestUserMessage (messages : List AzureChatMessage) : Option AzureChatMessage :=
  messages.reverse.find? (fun m => m.role == Role.user)

/-- Fixed reply of `buildDemoResponse` when no user turn exists. -/
def demoNoUserText : String :=
  "Ask a question to see the assistant\x27s recommendations."

/-- Template text placed before the echoed latest user content in
`buildDemoResponse`. -/
def demoEchoBefore : String :=
  "I understand you\x27re asking: \""

/-- Template text placed after the echoed latest user content in
`buildDemoResponse`. -/
def demoEchoAfter : String :=
  "\"." ++
  "\n\nOnce the Azure AI Foundry deployment is wired up, this response will come directly from your configured model. " ++
  "For now, consider drafting a follow-up action plan or requesting data from Fabric when the integration is ready."

/-- The `buildDemoResponse` helper of `aiFoundry.ts`. -/
def buildDemoResponse (messages : List AzureChatMessage) : String :=
  match latestUserMessage messages with
  | none => demoNoUserText
  | some latest => demoEchoBefore ++ latest.content ++ demoEchoAfter

/-- Warning string of the direct-mode fallback branch of
`completeChatWithAiFoundry`. -/
def directFallbackWarning : String :=
  "Set AI_FOUNDRY_ENDPOINT, AI_FOUNDRY_API_KEY, and AI_FOUNDRY_CHAT_DEPLOYMENT in .env.local to connect to your Azure project."

/-- Header prepended to `buildDemoResponse` in the direct-mode fallback
branch of `completeChatWithAiFoundry`. -/
def directFallbackHeader : String :=
  "WARNING: Azure AI Foundry credentials are not configured yet. Here\x27s a simulated response so you can keep exploring the assistant.\n\n"

/-- Warning string of the agent-mode fallback branch of
`completeChatWithAgent`. -/
def agentFallbackWarning : String :=
  "Set AI_FOUNDRY_ENDPOINT, AI_FOUNDRY_API_KEY, and AI_FOUNDRY_AGENT_ID to use agent mode."

/-- Header prepended to `buildDemoResponse` in the agent-mode fallback
branch of `completeChatWithAgent`. -/
def agentFallbackHeader : String :=
  "WARNING: Azure AI Foundry agent configuration not set. Provide AI_FOUNDRY_AGENT_ID in .env.local.\n\n"

/-- The `parseOptionalNumber` helper of `aiFoundry.ts`; `toNumber` stands
for the JS `Number` builtin, `none` modelling `NaN` (the
`Number.isNaN(parsed)` branch logs a warning and returns `undefined`). -/
def parseOptionalNumber (toNumber : String → Option Int) (value : Option String) : Option Int :=
  match value with
  | none => none
  | some s =>
    if s = "" then none
    else toNumber s

/-- Body of the direct-mode chat-completions request
(`client.chat.completions.create({messages, model, ...})`): the optional
sampling parameters are spread in only when parsing yielded a number. -/
structure DirectRequest where
  messages : List AzureChatMessage
  model : String
  temperature : Option Int
  top_p : Option Int
deriving Repr

/-- The direct-mode request assembled by `completeChatWithAiFoundry`
before the upstream call. `model` is the resolved deployment name (the
configured branch guarantees it is set). -/
def directRequest (toNumber : String → Option Int) (env : Env)
    (messages : List AzureChatMessage) : DirectRequest :=
  { messages := messages
    model := (envDeployment env).getD ""
    temperature := parseOptionalNumber toNumber env.AI_FOUNDRY_TEMPERATURE
    top_p := parseOptionalNumber toNumber env.AI_FOUNDRY_TOP_P }

/-- Usage counters of a direct-mode upstream response
(`response.usage`), both optional as the code reads them with `?? 0`. -/
structure ChatCompletionUsage where
  prompt_tokens : Option Nat
  completion_tokens : Option Nat
deriving DecidableEq, Repr

/-- Direct-mode upstream response as the code reads it: `content` is
`response.choices?.[0]?.message?.content` (absent or `null` collapses to
`none`), `usage` is `response.usage`. -/
structure ChatCompletionResponse where
  content : Option String
  usage : Option ChatCompletionUsage
deriving DecidableEq, Repr

/-- Outcome of the direct-mode upstream call: either the SDK call throws
(transport failure, non-success status, ...) or it yields a response. -/
inductive DirectOutcome where
  | throws (msg : String)
  | responds (resp : ChatCompletionResponse)
deriving Repr

/-- Usage mapping of the direct-mode success branch: both legacy and
canonical names are copied from the upstream counters and `total_tokens`
is `(prompt_tokens ?? 0) + (completion_tokens ?? 0)`. -/
def directUsage (u : ChatCompletionUsage) : Usage :=
  { input_tokens := u.prompt_tokens
    output_tokens := u.completion_tokens
    total_tokens := some (u.prompt_tokens.getD 0 + u.completion_tokens.getD 0)
    prompt_tokens := u.prompt_tokens
    completion_tokens := u.completion_tokens }

/-- The `completeChatWithAiFoundry` provider client of `aiFoundry.ts`.
Errors thrown inside the `try` block (including the empty-response throw)
are rethrown by its `catch` prefixed with `Azure AI Foundry request
failed: `. -/
def completeChatWithAiFoundry (toNumber : String → Option Int) (env : Env)
    (upstream : DirectRequest → DirectOutcome)
    (messages : List AzureChatMessage) : Except String AzureChatResult :=
  if directConfigured env = false then
    .ok { content := directFallbackHeader ++ buildDemoResponse messages
          warnings := some [directFallbackWarning]
          usage := none }
  else
    match upstream (directRequest toNumber env messages) with
    | .throws msg => .error ("Azure AI Foundry request failed: " ++ msg)
    | .responds resp =>
      match resp.content with
      | none =>
          .error "Azure AI Foundry request failed: Azure AI Foundry returned an empty response"
      | some c =>
          if jsTrim c = "" then
            .error "Azure AI Foundry request failed: Azure AI Foundry returned an empty response"
          else
            .ok { content := jsTrim c
                  warnings := none
                  usage := resp.usage.map directUsage }

/-- One element of an agent output block's `content` array:
`textValue` is `c.text?.value` and `value` is `c.value` (either may be
absent; the code probes both shapes). -/
structure AgentContentItem where
  textValue : Option String
  value : Option String
deriving DecidableEq, Repr

/-- One element of the agent payload's `output` array. -/
structure AgentOutputBlock where
  role : Option String
  content : Option (List AgentContentItem)
deriving DecidableEq, Repr

/-- The binding `const val = c.text?.value || c.value` (JS `||`: an empty
string on the left is falsy and falls through to `c.value`). -/
def itemVal (c : AgentContentItem) : Option String :=
  match c.textValue with
  | some s => if s = "" then c.value else some s
  | none => c.value

/-- Fragment contributed by one content item:
`if (typeof val === "string" && val.trim()) outputSegments.push(val.trim())`. -/
def itemSegment (c : AgentContentItem) : Option String :=
  match itemVal c with
  | some v => if jsTrim v = "" then none else some (jsTrim v)
  | none => none

/-- Fragments contributed by one output block: only blocks whose `role`
is `"assistant"` and that carry a `content` array contribute. -/
def blockSegments (b : AgentOutputBlock) : List String :=
  if b.role == some "assistant" then
    match b.content with
    | some items => items.filterMap itemSegment
    | none => []
  else []

/-- The `outputSegments` accumulator of `completeChatWithAgent`, in
iteration order. -/
def outputSegments (output : List AgentOutputBlock) : List String :=
  (output.map blockSegments).flatten

/-- The `combined` binding: `outputSegments.join("\n\n").trim()`. -/
def combinedAgentText (output : List AgentOutputBlock) : String :=
  jsTrim (String.intercalate "\n\n" (outputSegments output))

/-- Usage counters of an agent response payload (`data.usage`). -/
structure AgentUsagePayload where
  input_tokens : Option Nat
  output_tokens : Option Nat
  prompt_tokens : Option Nat
  completion_tokens : Option Nat
  total_tokens : Option Nat
deriving DecidableEq, Repr

/-- One element of the agent payload's `warnings` array. -/
structure AgentWarning where
  message : Option String
deriving DecidableEq, Repr

/-- Agent response payload (`AgentResponsePayload` in `aiFoundry.ts`),
restricted to the fields the code reads. -/
structure AgentResponsePayload where
  output : Option (List AgentOutputBlock)
  usage : Option AgentUsagePayload
  warnings : Option (List AgentWarning)
deriving DecidableEq, Repr

/-- Outcome of the agent upstream call. A non-success HTTP status is a
throw in the source (`Agent invocation failed (...)`), so it is covered by
`throws`. -/
inductive AgentOutcome where
  | throws (msg : String)
  | responds (data : AgentResponsePayload)
deriving Repr

/-- Usage mapping of the agent success branch: legacy names fall back
from canonical ones with `??`, and `total_tokens` is
`data.usage.total_tokens ?? ((prompt_tokens || 0) + (completion_tokens || 0))`
(for numbers, `x || 0` agrees with `getD 0` because `0 || 0` is `0`). -/
def agentUsage (u : AgentUsagePayload) : Usage :=
  { input_tokens := u.prompt_tokens.or u.input_tokens
    output_tokens := u.completion_tokens.or u.output_tokens
    total_tokens := some (match u.total_tokens with
      | some t => t
      | none => u.prompt_tokens.getD 0 + u.completion_tokens.getD 0)
    prompt_tokens := u.prompt_tokens
    completion_tokens := u.completion_tokens }

/-- The mapping `w => w.message || "Agent warning"` (JS `||`: an empty
message also falls back). -/
def agentWarningText (w : AgentWarning) : String :=
  match w.message with
  | some m => if m = "" then "Agent warning" else m
  | none => "Agent warning"

/-- The `completeChatWithAgent` provider client of `aiFoundry.ts`. Its
`catch` rethrows with the prefix `Azure AI Foundry agent request
failed: `. -/
def completeChatWithAgent (env : Env)
    (upstream : List AzureChatMessage → AgentOutcome)
    (messages : List AzureChatMessage) : Except String AzureChatResult :=
  if agentConfigured env = false then
    .ok { content := agentFallbackHeader ++ buildDemoResponse messages
          warnings := some [agentFallbackWarning]
          usage := none }
  else
    match upstream messages with
    | .throws msg => .error ("Azure AI Foundry agent request failed: " ++ msg)
    | .responds data =>
      let combined := combinedAgentText (data.output.getD [])
      if combined = "" then
        .error "Azure AI Foundry agent request failed: Agent returned empty output segment"
      else
        .ok { content := combined
              warnings := data.warnings.map (fun ws => ws.map agentWarningText)
              usage := data.usage.map agentUsage }

/-- The two upstream oracles a request may consult. -/
structure Upstream where
  direct : DirectRequest → DirectOutcome
  agent : List AzureChatMessage → AgentOutcome

/-- Which provider client a request is dispatched to. -/
inductive Mode where
  | agent
  | direct
deriving DecidableEq, Repr

/-- Dispatch rule of `completeChatAuto`: agent mode iff
`process.env.AI_FOUNDRY_AGENT_ID` is truthy. A function of the
configuration alone. -/
def autoMode (env : Env) : Mode :=
  if truthy env.AI_FOUNDRY_AGENT_ID then .agent else .direct

/-- The `completeChatAuto` dispatcher of `aiFoundry.ts`. -/
def completeChatAuto (toNumber : String → Option Int) (env : Env) (up : Upstream)
    (messages : List AzureChatMessage) : Except String AzureChatResult :=
  if truthy env.AI_FOUNDRY_AGENT_ID then
    completeChatWithAgent env up.agent messages
  else
    completeChatWithAiFoundry toNumber env up.direct messages

/-- One inbound turn of the route's `ChatRequest` payload, untrusted:
both fields may be absent. -/
structure RawMessage where
  role : Option Role
  content : Option String
deriving DecidableEq, Repr

/-- Sanitization of one inbound turn in the route handler:
`{role: message.role ?? "user", content: (message.content ?? "").slice(0, 6_000)}`. -/
def sanitizeMessage (m : RawMessage) : AzureChatMessage :=
  { role := m.role.getD Role.user
    content := (m.content.getD "").take 6000 }

/-- The `sanitizedMessages` binding of the route handler. -/
def sanitizedMessages (ms : List RawMessage) : List AzureChatMessage :=
  ms.map sanitizeMessage

/-- The `hasSystemRole` helper of the route module. -/
def hasSystemRole (messages : List AzureChatMessage) : Bool :=
  messages.any (fun m => m.role == Role.system)

/-- The `applySystemPrompt` helper of the route module. The
`!systemPrompt` guard makes an unset and an empty prompt both inert. -/
def applySystemPrompt (messages : List AzureChatMessage)
    (systemPrompt : Option String) : List AzureChatMessage :=
  match systemPrompt with
  | none => messages
  | some p =>
    if p = "" then messages
    else if hasSystemRole messages then messages
    else { role := Role.system, content := p } :: messages

/-- Inbound request body as the route perceives it: JSON parsing may
fail, and the `messages` field may be absent. -/
inductive RequestBody where
  | invalidJson
  | json (messages : Option (List RawMessage))
deriving Repr

/-- Externally visible response of the route handler. -/
inductive BrokerResponse where
  | success (result : AzureChatResult)
  | clientError (error : String)
  | upstreamFailure (error : String)
deriving DecidableEq, Repr

/-- HTTP status attached to each response shape by the route handler. -/
def BrokerResponse.status : BrokerResponse → Nat
  | .success _ => 200
  | .clientError _ => 400
  | .upstreamFailure _ => 502

/-- Behaviour of the telemetry emission sites of the `POST` handler:
`none` means the site succeeds, `some msg` that it throws an `Error`
with that message. Sites, in handler order:
* `startThrow` — the request-start attributes and `chat.request.start`
  event emitted before the `try` block;
* `perTurnThrow` — the per-message span loop, wrapped in its own
  `try`/`catch` that swallows and at most logs;
* `completionThrow` — the post-success telemetry inside the main `try`
  (usage attributes, `gen_ai.assistant.message` emission, end event);
* `errorEmitThrow` — the `gen_ai.assistant.message` error-record emission
  inside the `catch` block. -/
structure EmitBehavior where
  startThrow : Option String
  perTurnThrow : Option String
  completionThrow : Option String
  errorEmitThrow : Option String

/-- All emission sites succeed. -/
def emitsOk : EmitBehavior :=
  { startThrow := none
    perTurnThrow := none
    completionThrow := none
    errorEmitThrow := none }

/-- The `POST` handler of the chat API route. `Except.error` models an
exception escaping the handler (no `NextResponse` is produced); `.ok`
carries the response actually returned. Control flow with respect to the
emission sites follows the source: a throw from a site inside the main
`try` is caught by the `catch`, whose own emission may throw in turn and
escape. -/
def POST (toNumber : String → Option Int) (env : Env) (up : Upstream)
    (emits : EmitBehavior) (body : RequestBody) : Except String BrokerResponse :=
  match emits.startThrow with
  | some m => .error m
  | none =>
    match body with
    | .invalidJson => .ok (.clientError "Invalid JSON payload")
    | .json none => .ok (.clientError "Missing chat messages")
    | .json (some rawMessages) =>
      if rawMessages.isEmpty then .ok (.clientError "Missing chat messages")
      else
        let sanitized := sanitizedMessages rawMessages
        let systemPrompt := env.AI_FOUNDRY_SYSTEM_PROMPT.map jsTrim
        let preparedMessages := applySystemPrompt sanitized systemPrompt
        match completeChatAuto toNumber env up preparedMessages with
        | .ok result =>
          -- the per-message emission loop is wrapped: a throw there is
          -- swallowed and `emits.perTurnThrow` never influences the result
          match emits.completionThrow with
          | none => .ok (.success result)
          | some m =>
            match emits.errorEmitThrow with
            | none => .ok (.upstreamFailure m)
            | some m2 => .error m2
        | .error msg =>
          match emits.errorEmitThrow with
          | none => .ok (.upstreamFailure msg)
          | some m2 => .error m2

/-- Fixture: the JS `Number` oracle that treats every string as
non-numeric. -/
def noNumber : String → Option Int := fun _ => none

/-- Fixture: an environment with every variable unset. -/
def envUnset : Env :=
  { AI_FOUNDRY_ENDPOINT := none
    AI_FOUNDRY_API_KEY := none
    AI_FOUNDRY_CHAT_DEPLOYMENT := none
    AI_FOUNDRY_DEPLOYMENT := none
    AI_FOUNDRY_AGENT_ID := none
    AI_FOUNDRY_SYSTEM_PROMPT := none
    AI_FOUNDRY_TEMPERATURE := none
    AI_FOUNDRY_TOP_P := none }

/-- Fixture: an environment with the direct-mode variables set. -/
def envDirect : Env :=
  { envUnset with
    AI_FOUNDRY_ENDPOINT := some "https://example.invalid"
    AI_FOUNDRY_API_KEY := some "key"
    AI_FOUNDRY_CHAT_DEPLOYMENT := some "gpt" }

/-- Fixture: an environment with the agent-mode variables set. -/
def envAgent : Env :=
  { envUnset with
    AI_FOUNDRY_ENDPOINT := some "https://example.invalid"
    AI_FOUNDRY_API_KEY := some "key"
    AI_FOUNDRY_AGENT_ID := some "agent-1" }

/-- Fixture: upstream oracles that are never supposed to be reached. -/
def upstreamNever : Upstream :=
  { direct := fun _ => .throws "unreachable"
    agent := fun _ => .throws "unreachable" }

/-- Fixture: the expected fallback result for the single-turn conversation
`[{role: "user", content: "Hi"}]` with no configuration. -/
def demoHiResult : AzureChatResult :=
  { content := directFallbackHeader ++ (demoEchoBefore ++ "Hi" ++ demoEchoAfter)
    warnings := some [directFallbackWarning]
    usage := none }

/-- Fixture: the inbound body `{messages: [{role: "user", content: "Hi"}]}`. -/
def bodyHi : RequestBody :=
  .json (some [{ role := some Role.user, content := some "Hi" }])

/-- Fixture: a 6001-character content string. -/
def longContent : String := String.mk (List.replicate 6001 'a')

/-- Truncation never lengthens; with the bound at least the length it is
the identity (JS `slice(0, n)` on a short string). -/
theorem take_of_length_le (s : String) (n : Nat) (h : s.length ≤ n) :
    s.take n = s := by
  rw [String.take_eq]
  exact String.ext (List.take_of_length_le h)

/-- Length of a truncated string is the minimum of bound and length. -/
theorem length_take (s : String) (n : Nat) : (s.take n).length = min n s.length := by
  rw [String.take_eq]
  exact List.length_take n s.data

/-- Sanitization of a turn whose content fits the bound keeps the content
unchanged and resolves the role default. -/
theorem sanitizeMessage_eq (r : Option Role) (s : String) (h : s.length ≤ 6000) :
    sanitizeMessage { role := r, content := some s } =
      { role := r.getD Role.user, content := s } := by
  unfold sanitizeMessage
  simp [take_of_length_le _ _ h]

example : truthy (some "x") = true := by decide
example : buildDemoResponse [⟨Role.assistant, "a"⟩] = demoNoUserText := by rfl

/-- C1: for every conversation, `completeChatAuto` invokes the Agent Mode
client `completeChatWithAgent` iff `AI_FOUNDRY_AGENT_ID` is present (truthy)
in the configuration, and otherwise invokes the Direct Mode client
`completeChatWithAiFoundry`; the selected mode `autoMode env` is a function
of the configuration alone, the same for every conversation and every
upstream behaviour. -/
theorem completeChatAuto_dispatch (toNumber : String → Option Int) (env : Env)
    (up : Upstream) (messages : List AzureChatMessage) :
    (autoMode env = Mode.agent ↔ truthy env.AI_FOUNDRY_AGENT_ID = true) ∧
    (truthy env.AI_FOUNDRY_AGENT_ID = true →
      completeChatAuto toNumber env up messages =
        completeChatWithAgent env up.agent messages) ∧
    (truthy env.AI_FOUNDRY_AGENT_ID = false →
      completeChatAuto toNumber env up messages =
        completeChatWithAiFoundry toNumber env up.direct messages) := by
  refine ⟨?_, ?_, ?_⟩
  · unfold autoMode
    cases h : truthy env.AI_FOUNDRY_AGENT_ID <;> simp [h]
  · intro h
    unfold completeChatAuto
    simp [h]
  · intro h
    unfold completeChatAuto
    simp [h]

/-- Witness for C1: with an agent id configured the dispatcher calls the
agent client; with only a deployment configured it calls the direct
client. -/
theorem completeChatAuto_dispatch_witness :
    completeChatAuto noNumber { envUnset with AI_FOUNDRY_AGENT_ID := some "agent-1" }
        upstreamNever [] =
      completeChatWithAgent { envUnset with AI_FOUNDRY_AGENT_ID := some "agent-1" }
        upstreamNever.agent [] ∧
    completeChatAuto noNumber envDirect upstreamNever [] =
      completeChatWithAiFoundry noNumber envDirect upstreamNever.direct [] := by
  constructor
  · exact (completeChatAuto_dispatch noNumber _ upstreamNever []).2.1 (by decide)
  · exact (completeChatAuto_dispatch noNumber envDirect upstreamNever []).2.2 (by decide)

/-- C4: `applySystemPrompt` prepends exactly one synthetic system turn
holding the configured instruction when one is configured (non-empty) and
no turn has role `system`; it returns the conversation unchanged when a
system turn is already present or no instruction is configured; and the
operation is idempotent. -/
theorem applySystemPrompt_spec (messages : List AzureChatMessage)
    (systemPrompt : Option String) :
    (∀ p, p ≠ "" → hasSystemRole messages = false →
      applySystemPrompt messages (some p) =
        { role := Role.system, content := p } :: messages) ∧
    (hasSystemRole messages = true →
      applySystemPrompt messages systemPrompt = messages) ∧
    (truthy systemPrompt = false →
      applySystemPrompt messages systemPrompt = messages) ∧
    applySystemPrompt (applySystemPrompt messages systemPrompt) systemPrompt =
      applySystemPrompt messages systemPrompt := by
  refine ⟨?_, ?_, ?_, ?_⟩
  · intro p hp hs
    unfold applySystemPrompt
    simp [hp, hs]
  · intro hs
    unfold applySystemPrompt
    cases systemPrompt with
    | none => rfl
    | some p =>
      by_cases hp : p = "" <;> simp [hp, hs]
  · intro ht
    cases systemPrompt with
    | none => rfl
    | some p =>
      unfold truthy at ht
      unfold applySystemPrompt
      by_cases hp : p = "" <;> simp [hp] at ht ⊢
  · cases systemPrompt with
    | none => rfl
    | some p =>
      by_cases hp : p = ""
      · simp [applySystemPrompt, hp]
      · by_cases hs : hasSystemRole messages = true
        · simp [applySystemPrompt, hp, hs]
        · have hs' : hasSystemRole messages = false := by
            cases h : hasSystemRole messages
            · rfl
            · exact absurd h hs
          have hcons : hasSystemRole ({ role := Role.system, content := p } :: messages) = true := by
            simp [hasSystemRole]
          simp [applySystemPrompt, hp, hs', hcons]

/-- Witness for C4: a fresh instruction is prepended to a user-only
conversation, a second application changes nothing, and a conversation
already holding a system turn is left unchanged. -/
theorem applySystemPrompt_spec_witness :
    applySystemPrompt [{ role := Role.user, content := "hi" }] (some "be brief") =
      { role := Role.system, content := "be brief" } ::
        [{ role := Role.user, content := "hi" }] ∧
    applySystemPrompt
        (applySystemPrompt [{ role := Role.user, content := "hi" }] (some "be brief"))
        (some "be brief") =
      applySystemPrompt [{ role := Role.user, content := "hi" }] (some "be brief") ∧
    applySystemPrompt [{ role := Role.system, content := "s" }] (some "be brief") =
      [{ role := Role.system, content := "s" }] := by
  refine ⟨?_, ?_, ?_⟩
  · exact (applySystemPrompt_spec [{ role := Role.user, content := "hi" }]
      (some "be brief")).1 "be brief" (by decide) (by decide)
  · exact (applySystemPrompt_spec [{ role := Role.user, content := "hi" }]
      (some "be brief")).2.2.2
  · exact (applySystemPrompt_spec [{ role := Role.system, content := "s" }]
      (some "be brief")).2.1 (by decide)

/-- C5: sanitization fills a missing role with `user` (keeping a present
role), fills missing content with the empty string, truncates content
longer than 6000 characters to length exactly 6000, leaves content of
length at most 6000 unchanged, and preserves the number and order of
turns. -/
theorem sanitizedMessages_spec :
    (∀ m : RawMessage, m.role = none → (sanitizeMessage m).role = Role.user) ∧
    (∀ (m : RawMessage) r, m.role = some r → (sanitizeMessage m).role = r) ∧
    (∀ m : RawMessage, m.content = none → (sanitizeMessage m).content = "") ∧
    (∀ (m : RawMessage) s, m.content = some s → 6000 < s.length →
      (sanitizeMessage m).content.length = 6000) ∧
    (∀ (m : RawMessage) s, m.content = some s → s.length ≤ 6000 →
      (sanitizeMessage m).content = s) ∧
    (∀ ms : List RawMessage, (sanitizedMessages ms).length = ms.length) ∧
    (∀ (ms : List RawMessage) (i : Nat),
      (sanitizedMessages ms)[i]? = ms[i]?.map sanitizeMessage) := by
  refine ⟨?_, ?_, ?_, ?_, ?_, ?_, ?_⟩
  · intro m h
    simp [sanitizeMessage, h]
  · intro m r h
    simp [sanitizeMessage, h]
  · intro m h
    simp [sanitizeMessage, h, take_of_length_le ("" : String) 6000 (by decide)]
  · intro m s h hlen
    simp only [sanitizeMessage, h, Option.getD_some, length_take]
    omega
  · intro m s h hlen
    simp [sanitizeMessage, h, take_of_length_le s 6000 hlen]
  · intro ms
    simp [sanitizedMessages]
  · intro ms i
    simp [sanitizedMessages]

/-- Witness for C5: a missing role becomes `user`, a missing content
becomes empty, short content is kept verbatim, and content of 6001
characters is cut to exactly 6000. -/
theorem sanitizedMessages_spec_witness :
    (sanitizeMessage { role := none, content := some "hi" }).role = Role.user ∧
    (sanitizeMessage { role := some Role.assistant, content := none }).content = "" ∧
    (sanitizeMessage { role := none, content := some "hi" }).content = "hi" ∧
    (sanitizeMessage { role := none, content := some longContent }).content.length = 6000 ∧
    (sanitizedMessages
      [{ role := none, content := some "hi" },
       { role := some Role.system, content := none }]).length = 2 := by
  refine ⟨?_, ?_, ?_, ?_, ?_⟩
  · exact sanitizedMessages_spec.1 _ rfl
  · exact sanitizedMessages_spec.2.2.1 _ rfl
  · exact sanitizedMessages_spec.2.2.2.2.1 _ "hi" rfl (by decide)
  · exact sanitizedMessages_spec.2.2.2.1 _ longContent rfl
      (by show 6000 < (List.replicate 6001 'a').length
          rw [List.length_replicate]
          omega)
  · exact sanitizedMessages_spec.2.2.2.2.2.1 _

/-- C8: numeric configuration parsing (`parseOptionalNumber`): an unset or
empty value is absent, an invalid (non-numeric, NaN) value is treated as
absent and never fails the request (the client behaves exactly as if the
variable were unset), and a valid numeric value is forwarded into the
upstream request body. -/
theorem parseOptionalNumber_spec :
    (∀ tn, parseOptionalNumber tn none = none) ∧
    (∀ tn, parseOptionalNumber tn (some "") = none) ∧
    (∀ tn s, tn s = none → parseOptionalNumber tn (some s) = none) ∧
    (∀ tn s n, s ≠ "" → tn s = some n → parseOptionalNumber tn (some s) = some n) ∧
    (∀ tn (env : Env) messages,
      (directRequest tn env messages).temperature =
        parseOptionalNumber tn env.AI_FOUNDRY_TEMPERATURE ∧
      (directRequest tn env messages).top_p =
        parseOptionalNumber tn env.AI_FOUNDRY_TOP_P) ∧
    (∀ tn (env : Env) (dOracle : DirectRequest → DirectOutcome) messages s, tn s = none →
      completeChatWithAiFoundry tn { env with AI_FOUNDRY_TEMPERATURE := some s }
          dOracle messages =
        completeChatWithAiFoundry tn { env with AI_FOUNDRY_TEMPERATURE := none }
          dOracle messages) ∧
    (∀ tn (env : Env) (dOracle : DirectRequest → DirectOutcome) messages s, tn s = none →
      completeChatWithAiFoundry tn { env with AI_FOUNDRY_TOP_P := some s }
          dOracle messages =
        completeChatWithAiFoundry tn { env with AI_FOUNDRY_TOP_P := none }
          dOracle messages) := by
  refine ⟨fun tn => rfl, fun tn => by simp [parseOptionalNumber], ?_, ?_, ?_, ?_, ?_⟩
  · intro tn s h
    unfold parseOptionalNumber
    by_cases hs : s = "" <;> simp [hs, h]
  · intro tn s n hs h
    simp [parseOptionalNumber, hs, h]
  · intro tn env messages
    exact ⟨rfl, rfl⟩
  · intro tn env dOracle messages s h
    have hreq : directRequest tn { env with AI_FOUNDRY_TEMPERATURE := some s } messages =
        directRequest tn { env with AI_FOUNDRY_TEMPERATURE := none } messages := by
      unfold directRequest parseOptionalNumber
      by_cases hs : s = "" <;> simp [hs, h]
      all_goals rfl
    unfold completeChatWithAiFoundry
    rw [show directConfigured { env with AI_FOUNDRY_TEMPERATURE := some s } =
          directConfigured { env with AI_FOUNDRY_TEMPERATURE := none } from rfl,
        hreq]
  · intro tn env dOracle messages s h
    have hreq : directRequest tn { env with AI_FOUNDRY_TOP_P := some s } messages =
        directRequest tn { env with AI_FOUNDRY_TOP_P := none } messages := by
      unfold directRequest parseOptionalNumber
      by_cases hs : s = "" <;> simp [hs, h]
      all_goals rfl
    unfold completeChatWithAiFoundry
    rw [show directConfigured { env with AI_FOUNDRY_TOP_P := some s } =
          directConfigured { env with AI_FOUNDRY_TOP_P := none } from rfl,
        hreq]

/-- Witness for C8: the oracle that parses only "0.5" leaves unset, empty
and invalid values absent, forwards the valid one, and an invalid
temperature yields exactly the behaviour of an unset temperature. -/
theorem parseOptionalNumber_spec_witness :
    parseOptionalNumber (fun s => if s = "0.5" then some 1 else none) none = none ∧
    parseOptionalNumber (fun s => if s = "0.5" then some 1 else none) (some "") = none ∧
    parseOptionalNumber (fun s => if s = "0.5" then some 1 else none) (some "abc") = none ∧
    parseOptionalNumber (fun s => if s = "0.5" then some 1 else none) (some "0.5") = some 1 ∧
    completeChatWithAiFoundry (fun s => if s = "0.5" then some 1 else none)
        { envDirect with AI_FOUNDRY_TEMPERATURE := some "abc" } upstreamNever.direct [] =
      completeChatWithAiFoundry (fun s => if s = "0.5" then some 1 else none)
        { envDirect with AI_FOUNDRY_TEMPERATURE := none } upstreamNever.direct [] := by
  refine ⟨?_, ?_, ?_, ?_, ?_⟩
  · exact parseOptionalNumber_spec.1 _
  · exact parseOptionalNumber_spec.2.1 _
  · exact parseOptionalNumber_spec.2.2.1 _ "abc" (by decide)
  · exact parseOptionalNumber_spec.2.2.2.1 _ "0.5" 1 (by decide) (by decide)
  · exact parseOptionalNumber_spec.2.2.2.2.2.1 _ envDirect upstreamNever.direct [] "abc"
      (by decide)

/-- An append whose left part is non-empty is non-empty. -/
theorem append_ne_empty_left (a b : String) (h : a.length ≠ 0) : a ++ b ≠ "" := by
  intro hc
  have hlen := congrArg String.length hc
  rw [String.length_append] at hlen
  have h0 : ("" : String).length = 0 := rfl
  rw [h0] at hlen
  omega

/-- C2: with the required configuration missing, each provider client
returns successfully (never raises) with a single-element warnings list
naming exactly the required variables of its mode, and a content that
contains the content of the latest turn with role `user` verbatim
(between the fixed template fragments). -/
theorem fallback_spec (tn : String → Option Int) (env : Env)
    (dOracle : DirectRequest → DirectOutcome)
    (aOracle : List AzureChatMessage → AgentOutcome)
    (messages : List AzureChatMessage) (latest : AzureChatMessage)
    (hlatest : latestUserMessage messages = some latest) :
    (directConfigured env = false →
      completeChatWithAiFoundry tn env dOracle messages =
        .ok { content := directFallbackHeader ++
                (demoEchoBefore ++ latest.content ++ demoEchoAfter)
              warnings := some [directFallbackWarning]
              usage := none }) ∧
    (agentConfigured env = false →
      completeChatWithAgent env aOracle messages =
        .ok { content := agentFallbackHeader ++
                (demoEchoBefore ++ latest.content ++ demoEchoAfter)
              warnings := some [agentFallbackWarning]
              usage := none }) := by
  constructor
  · intro h
    unfold completeChatWithAiFoundry
    simp [h, buildDemoResponse, hlatest]
  · intro h
    unfold completeChatWithAgent
    simp [h, buildDemoResponse, hlatest]

/-- Witness for C2: with nothing configured, both clients echo the latest
user turn `"Hello"` and emit their single fixed warning. -/
theorem fallback_spec_witness :
    completeChatWithAiFoundry noNumber envUnset upstreamNever.direct
        [{ role := Role.user, content := "Hello" }] =
      .ok { content := directFallbackHeader ++
              (demoEchoBefore ++ "Hello" ++ demoEchoAfter)
            warnings := some [directFallbackWarning]
            usage := none } ∧
    completeChatWithAgent envUnset upstreamNever.agent
        [{ role := Role.user, content := "Hello" }] =
      .ok { content := agentFallbackHeader ++
              (demoEchoBefore ++ "Hello" ++ demoEchoAfter)
            warnings := some [agentFallbackWarning]
            usage := none } := by
  have h := fallback_spec noNumber envUnset upstreamNever.direct upstreamNever.agent
      [{ role := Role.user, content := "Hello" }]
      { role := Role.user, content := "Hello" } (by decide)
  exact ⟨h.1 (by decide), h.2 (by decide)⟩

/-- C10: with the direct-mode configuration missing and no turn of role
`user`, the fallback still succeeds, its content is the fixed warning
header followed by the fixed generic text (nothing echoed), and under the
same incomplete configuration every conversation gets the same
single-element warnings list. -/
theorem fallback_noUser_spec (tn : String → Option Int) (env : Env)
    (dOracle : DirectRequest → DirectOutcome) (messages : List AzureChatMessage)
    (hcfg : directConfigured env = false)
    (hnouser : ∀ m ∈ messages, m.role ≠ Role.user) :
    completeChatWithAiFoundry tn env dOracle messages =
      .ok { content := directFallbackHeader ++ demoNoUserText
            warnings := some [directFallbackWarning]
            usage := none } ∧
    (∀ (messages2 : List AzureChatMessage) r,
      completeChatWithAiFoundry tn env dOracle messages2 = .ok r →
      r.warnings = some [directFallbackWarning]) := by
  have hfind : latestUserMessage messages = none := by
    unfold latestUserMessage
    rw [List.find?_eq_none]
    intro x hx
    have hmem : x ∈ messages := List.mem_reverse.1 hx
    simp [hnouser x hmem]
  constructor
  · unfold completeChatWithAiFoundry
    simp [hcfg, buildDemoResponse, hfind]
  · intro messages2 r h
    unfold completeChatWithAiFoundry at h
    simp only [hcfg] at h
    simp at h
    rw [← h]

/-- Witness for C10: an assistant-only conversation yields the generic
fallback text under empty configuration. -/
theorem fallback_noUser_spec_witness :
    completeChatWithAiFoundry noNumber envUnset upstreamNever.direct
        [{ role := Role.assistant, content := "report" }] =
      .ok { content := directFallbackHeader ++ demoNoUserText
            warnings := some [directFallbackWarning]
            usage := none } := by
  exact (fallback_noUser_spec noNumber envUnset upstreamNever.direct
      [{ role := Role.assistant, content := "report" }] (by decide) (by decide)).1

/-- C6: on a successful direct-mode completion carrying usage counters,
the result maps both legacy (`input_tokens`/`output_tokens`) and canonical
(`prompt_tokens`/`completion_tokens`) names from the upstream counters and
computes `total_tokens` as their sum; the agent-mode usage mapping does
the same when the upstream supplies no total. -/
theorem usage_mapping_spec (tn : String → Option Int) (env : Env)
    (dOracle : DirectRequest → DirectOutcome) (messages : List AzureChatMessage)
    (s : String) (p c : Nat) (resp : ChatCompletionResponse)
    (hcfg : directConfigured env = true)
    (hup : ∀ req, dOracle req = .responds resp)
    (hcontent : resp.content = some s)
    (htrim : jsTrim s ≠ "")
    (husage : resp.usage = some { prompt_tokens := some p, completion_tokens := some c }) :
    completeChatWithAiFoundry tn env dOracle messages =
      .ok { content := jsTrim s
            warnings := none
            usage := some { input_tokens := some p, output_tokens := some c,
                            total_tokens := some (p + c),
                            prompt_tokens := some p, completion_tokens := some c } } ∧
    (∀ (ia oa : Option Nat) (pa ca : Nat),
      agentUsage { input_tokens := ia, output_tokens := oa,
                   prompt_tokens := some pa, completion_tokens := some ca,
                   total_tokens := none } =
        { input_tokens := some pa, output_tokens := some ca,
          total_tokens := some (pa + ca),
          prompt_tokens := some pa, completion_tokens := some ca }) := by
  constructor
  · unfold completeChatWithAiFoundry
    simp [hcfg, hup, hcontent, htrim, husage, directUsage]
  · intro ia oa pa ca
    simp [agentUsage, Option.or]

/-- Witness for C6: a stubbed provider answering `"Hi"` with
`prompt_tokens = 5` and `completion_tokens = 2` yields content `"Hi"` and
`total_tokens = 7`. -/
theorem usage_mapping_spec_witness :
    completeChatWithAiFoundry noNumber envDirect
        (fun _ => .responds { content := some "Hi",
                              usage := some { prompt_tokens := some 5,
                                              completion_tokens := some 2 } })
        [{ role := Role.user, content := "Hello" }] =
      .ok { content := "Hi"
            warnings := none
            usage := some { input_tokens := some 5, output_tokens := some 2,
                            total_tokens := some 7,
                            prompt_tokens := some 5, completion_tokens := some 2 } } := by
  have h := (usage_mapping_spec noNumber envDirect
      (fun _ => .responds { content := some "Hi",
                            usage := some { prompt_tokens := some 5,
                                            completion_tokens := some 2 } })
      [{ role := Role.user, content := "Hello" }] "Hi" 5 2
      { content := some "Hi",
        usage := some { prompt_tokens := some 5, completion_tokens := some 2 } }
      (by decide) (fun req => rfl) rfl (by decide) rfl).1
  rw [show jsTrim "Hi" = "Hi" from rfl] at h
  exact h

/-- A non-assistant block contributes no fragments. -/
theorem blockSegments_non_assistant (b : AgentOutputBlock)
    (h : (b.role == some "assistant") = false) : blockSegments b = [] := by
  simp [blockSegments, h]

/-- C7: agent response parsing ignores every non-assistant output block,
accepts both nested content shapes (`{text:{value}}` and `{value}`), trims
each fragment and keeps only the non-empty ones, returns the fragments
joined by a blank line as the content, and fails with the upstream error
when the combined assistant text is empty. -/
theorem agentParsing_spec (env : Env) (aOracle : List AzureChatMessage → AgentOutcome)
    (messages : List AzureChatMessage) (data : AgentResponsePayload)
    (hcfg : agentConfigured env = true)
    (hup : aOracle messages = .responds data) :
    (∀ blocks : List AgentOutputBlock,
      combinedAgentText (blocks.filter fun b => b.role == some "assistant") =
        combinedAgentText blocks) ∧
    (∀ v, jsTrim v ≠ "" →
      itemSegment { textValue := some v, value := none } = some (jsTrim v) ∧
      itemSegment { textValue := none, value := some v } = some (jsTrim v)) ∧
    (∀ v, jsTrim v = "" →
      itemSegment { textValue := some v, value := none } = none ∧
      itemSegment { textValue := none, value := some v } = none) ∧
    (combinedAgentText (data.output.getD []) = "" →
      completeChatWithAgent env aOracle messages =
        .error "Azure AI Foundry agent request failed: Agent returned empty output segment") ∧
    (combinedAgentText (data.output.getD []) ≠ "" →
      completeChatWithAgent env aOracle messages =
        .ok { content := combinedAgentText (data.output.getD [])
              warnings := data.warnings.map (fun ws => ws.map agentWarningText)
              usage := data.usage.map agentUsage }) := by
  refine ⟨?_, ?_, ?_, ?_, ?_⟩
  · intro blocks
    unfold combinedAgentText
    have hsegs : outputSegments (blocks.filter fun b => b.role == some "assistant") =
        outputSegments blocks := by
      unfold outputSegments
      induction blocks with
      | nil => rfl
      | cons b bs ih =>
        cases hb : (b.role == some "assistant") with
        | true => simp [List.filter_cons, hb, ih]
        | false =>
          simp [List.filter_cons, hb, ih, blockSegments_non_assistant b hb]
    rw [hsegs]
  · intro v h
    have hv : v ≠ "" := by
      intro hv
      subst hv
      exact h rfl
    constructor
    · simp [itemSegment, itemVal, hv, h]
    · simp [itemSegment, itemVal, h]
  · intro v h
    constructor
    · by_cases hv : v = "" <;> simp [itemSegment, itemVal, hv, h]
    · simp [itemSegment, itemVal, h]
  · intro hempty
    unfold completeChatWithAgent
    simp [hcfg, hup, hempty]
  · intro hne
    unfold completeChatWithAgent
    simp [hcfg, hup, hne]

/-- Witness for C7: a tool block is ignored, the `{text:{value}}` fragment
`" A "` is trimmed, the `{value}` fragment `"B"` is kept, and the result
joins them with a blank line. -/
theorem agentParsing_spec_witness :
    completeChatWithAgent envAgent
        (fun _ => .responds
          { output := some
              [{ role := some "tool",
                 content := some [{ textValue := some "ignored", value := none }] },
               { role := some "assistant",
                 content := some [{ textValue := some " A ", value := none },
                                  { textValue := none, value := some "B" }] }]
            usage := none
            warnings := none })
        [] =
      .ok { content := "A\n\nB", warnings := none, usage := none } := by
  have h := (agentParsing_spec envAgent
      (fun _ => .responds
        { output := some
            [{ role := some "tool",
               content := some [{ textValue := some "ignored", value := none }] },
             { role := some "assistant",
               content := some [{ textValue := some " A ", value := none },
                                { textValue := none, value := some "B" }] }]
          usage := none
          warnings := none })
      []
      { output := some
          [{ role := some "tool",
             content := some [{ textValue := some "ignored", value := none }] },
           { role := some "assistant",
             content := some [{ textValue := some " A ", value := none },
                              { textValue := none, value := some "B" }] }]
        usage := none
        warnings := none }
      (by decide) rfl).2.2.2.2 (by decide)
  simpa using h

/-- The direct client never succeeds with empty content: the fallback
content starts with a non-empty header and the upstream branch returns the
trimmed text only when it is non-empty. -/
theorem completeChatWithAiFoundry_content_ne_empty (tn : String → Option Int)
    (env : Env) (dOracle : DirectRequest → DirectOutcome)
    (messages : List AzureChatMessage) (r : AzureChatResult)
    (h : completeChatWithAiFoundry tn env dOracle messages = .ok r) :
    r.content ≠ "" := by
  unfold completeChatWithAiFoundry at h
  split at h
  · cases h
    exact append_ne_empty_left _ _ (by decide)
  · split at h
    · simp at h
    · split at h
      · simp at h
      · split at h
        · simp at h
        · cases h
          next hne => exact hne

/-- The agent client never succeeds with empty content. -/
theorem completeChatWithAgent_content_ne_empty (env : Env)
    (aOracle : List AzureChatMessage → AgentOutcome)
    (messages : List AzureChatMessage) (r : AzureChatResult)
    (h : completeChatWithAgent env aOracle messages = .ok r) :
    r.content ≠ "" := by
  unfold completeChatWithAgent at h
  split at h
  · cases h
    exact append_ne_empty_left _ _ (by decide)
  · split at h
    · simp at h
    · dsimp only [] at h
      split at h
      · simp at h
      · cases h
        next hne => exact hne

/-- The dispatcher never succeeds with empty content. -/
theorem completeChatAuto_content_ne_empty (tn : String → Option Int) (env : Env)
    (up : Upstream) (messages : List AzureChatMessage) (r : AzureChatResult)
    (h : completeChatAuto tn env up messages = .ok r) : r.content ≠ "" := by
  unfold completeChatAuto at h
  split at h
  · exact completeChatWithAgent_content_ne_empty _ _ _ _ h
  · exact completeChatWithAiFoundry_content_ne_empty _ _ _ _ _ h

/-- The route rejects nothing before the start event: a throwing start
emission escapes the handler. -/
theorem POST_start_throws (tn : String → Option Int) (env : Env) (up : Upstream)
    (e : EmitBehavior) (body : RequestBody) (m : String)
    (hst : e.startThrow = some m) : POST tn env up e body = .error m := by
  unfold POST
  rw [hst]

/-- Evaluation of the route on malformed JSON. -/
theorem POST_invalidJson (tn : String → Option Int) (env : Env) (up : Upstream)
    (e : EmitBehavior) (hst : e.startThrow = none) :
    POST tn env up e .invalidJson = .ok (.clientError "Invalid JSON payload") := by
  unfold POST
  rw [hst]

/-- Evaluation of the route on a missing messages field. -/
theorem POST_json_none (tn : String → Option Int) (env : Env) (up : Upstream)
    (e : EmitBehavior) (hst : e.startThrow = none) :
    POST tn env up e (.json none) = .ok (.clientError "Missing chat messages") := by
  unfold POST
  rw [hst]

/-- Evaluation of the route on an empty messages list. -/
theorem POST_json_empty (tn : String → Option Int) (env : Env) (up : Upstream)
    (e : EmitBehavior) (raws : List RawMessage) (hst : e.startThrow = none)
    (hie : raws.isEmpty = true) :
    POST tn env up e (.json (some raws)) =
      .ok (.clientError "Missing chat messages") := by
  unfold POST
  rw [hst]
  dsimp only
  rw [hie]
  rfl

/-- Evaluation of the route on a non-empty messages list, as a function of
the dispatcher outcome and the unwrapped emission sites. -/
theorem POST_json_eval (tn : String → Option Int) (env : Env) (up : Upstream)
    (e : EmitBehavior) (raws : List RawMessage)
    (hst : e.startThrow = none) (hie : raws.isEmpty = false) :
    POST tn env up e (.json (some raws)) =
      match completeChatAuto tn env up
          (applySystemPrompt (sanitizedMessages raws)
            (Option.map jsTrim env.AI_FOUNDRY_SYSTEM_PROMPT)) with
      | .ok result =>
        (match e.completionThrow with
         | none => .ok (.success result)
         | some m =>
           match e.errorEmitThrow with
           | none => .ok (.upstreamFailure m)
           | some m2 => .error m2)
      | .error msg =>
        (match e.errorEmitThrow with
         | none => .ok (.upstreamFailure msg)
         | some m2 => .error m2) := by
  unfold POST
  rw [hst]
  dsimp only
  rw [hie]
  rfl

/-- C3: when the upstream responds successfully but the completion text is
empty or whitespace-only, the broker fails with the upstream error
surfaced as a 502 response; and in general the broker never returns a 200
success whose content is empty. -/
theorem emptyCompletion_502_spec (tn : String → Option Int) (env : Env)
    (up : Upstream) (raws : List RawMessage) (resp : ChatCompletionResponse)
    (s : String)
    (haid : truthy env.AI_FOUNDRY_AGENT_ID = false)
    (hcfg : directConfigured env = true)
    (hup : ∀ req, up.direct req = .responds resp)
    (hcontent : resp.content = some s)
    (htrim : jsTrim s = "")
    (hne : raws ≠ []) :
    POST tn env up emitsOk (.json (some raws)) =
      .ok (.upstreamFailure
        "Azure AI Foundry request failed: Azure AI Foundry returned an empty response") ∧
    BrokerResponse.status (.upstreamFailure
      "Azure AI Foundry request failed: Azure AI Foundry returned an empty response") = 502 ∧
    (∀ tn2 (env2 : Env) (up2 : Upstream) (e2 : EmitBehavior) (b2 : RequestBody)
      (r : AzureChatResult),
      POST tn2 env2 up2 e2 b2 = .ok (.success r) → r.content ≠ "") := by
  refine ⟨?_, rfl, ?_⟩
  · have hisEmpty : raws.isEmpty = false := by
      cases raws with
      | nil => exact absurd rfl hne
      | cons a l => rfl
    have hauto : completeChatAuto tn env up
        (applySystemPrompt (sanitizedMessages raws)
          (env.AI_FOUNDRY_SYSTEM_PROMPT.map jsTrim)) =
        .error "Azure AI Foundry request failed: Azure AI Foundry returned an empty response" := by
      unfold completeChatAuto
      simp only [haid, Bool.false_eq_true, if_false]
      unfold completeChatWithAiFoundry
      simp [hcfg, hup, hcontent, htrim]
    unfold POST
    simp [emitsOk, hisEmpty, hauto]
  · intro tn2 env2 up2 e2 b2 r h
    cases hst : e2.startThrow with
    | some m =>
      rw [POST_start_throws tn2 env2 up2 e2 b2 m hst] at h
      exact Except.noConfusion h
    | none =>
      cases b2 with
      | invalidJson =>
        rw [POST_invalidJson tn2 env2 up2 e2 hst] at h
        simp at h
      | json msgs? =>
        cases msgs? with
        | none =>
          rw [POST_json_none tn2 env2 up2 e2 hst] at h
          simp at h
        | some raws2 =>
          cases hie : raws2.isEmpty with
          | true =>
            rw [POST_json_empty tn2 env2 up2 e2 raws2 hst hie] at h
            simp at h
          | false =>
            rw [POST_json_eval tn2 env2 up2 e2 raws2 hst hie] at h
            cases hca : completeChatAuto tn2 env2 up2
                (applySystemPrompt (sanitizedMessages raws2)
                  (Option.map jsTrim env2.AI_FOUNDRY_SYSTEM_PROMPT)) with
            | error msg =>
              simp only [hca] at h
              cases hee : e2.errorEmitThrow with
              | none => simp only [hee] at h; simp at h
              | some m2 => simp only [hee] at h; exact Except.noConfusion h
            | ok result =>
              simp only [hca] at h
              cases hct : e2.completionThrow with
              | none =>
                simp only [hct] at h
                have hr : result = r := by simpa using h
                subst hr
                exact completeChatAuto_content_ne_empty _ _ _ _ _ hca
              | some m2 =>
                simp only [hct] at h
                cases hee : e2.errorEmitThrow with
                | none => simp only [hee] at h; simp at h
                | some m3 => simp only [hee] at h; exact Except.noConfusion h

/-- Witness for C3: a whitespace-only completion `"   "` under a complete
direct configuration yields the 502 upstream failure. -/
theorem emptyCompletion_502_spec_witness :
    POST noNumber envDirect
        { direct := fun _ => .responds { content := some "   ", usage := none }
          agent := fun _ => .throws "unreachable" }
        emitsOk (.json (some [{ role := some Role.user, content := some "Hello" }])) =
      .ok (.upstreamFailure
        "Azure AI Foundry request failed: Azure AI Foundry returned an empty response") := by
  exact (emptyCompletion_502_spec noNumber envDirect
      { direct := fun _ => .responds { content := some "   ", usage := none }
        agent := fun _ => .throws "unreachable" }
      [{ role := some Role.user, content := some "Hello" }]
      { content := some "   ", usage := none } "   "
      (by decide) (by decide) (fun req => rfl) rfl (by decide) (by decide)).1

/-- Sanitization of the single-turn `"Hi"` payload. -/
theorem sanitizedMessages_hi :
    sanitizedMessages [{ role := some Role.user, content := some "Hi" }] =
      [{ role := Role.user, content := "Hi" }] := by
  unfold sanitizedMessages
  rw [List.map_cons, List.map_nil, sanitizeMessage_eq (some Role.user) "Hi" (by decide)]
  rfl

/-- With nothing configured, the dispatcher resolves the `"Hi"` payload to
the direct-mode fallback result. -/
theorem completeChatAuto_demoHi :
    completeChatAuto noNumber envUnset upstreamNever
      (applySystemPrompt
        (sanitizedMessages [{ role := some Role.user, content := some "Hi" }])
        (Option.map jsTrim envUnset.AI_FOUNDRY_SYSTEM_PROMPT)) = .ok demoHiResult := by
  rw [sanitizedMessages_hi]
  rfl

/-- Route evaluation on the `"Hi"` payload with every emission succeeding:
the 200 fallback success. -/
theorem POST_demoHi_ok :
    POST noNumber envUnset upstreamNever emitsOk bodyHi =
      .ok (.success demoHiResult) := by
  rw [show bodyHi = .json (some [{ role := some Role.user, content := some "Hi" }]) from rfl,
      POST_json_eval noNumber envUnset upstreamNever emitsOk
        [{ role := some Role.user, content := some "Hi" }] rfl rfl,
      completeChatAuto_demoHi]
  rfl

/-- Route evaluation on the `"Hi"` payload when the completion-record
emission throws: the catch converts the success into a 502. -/
theorem POST_demoHi_emitFail :
    POST noNumber envUnset upstreamNever
        { startThrow := none, perTurnThrow := none,
          completionThrow := some "emit failed", errorEmitThrow := none } bodyHi =
      .ok (.upstreamFailure "emit failed") := by
  rw [show bodyHi = .json (some [{ role := some Role.user, content := some "Hi" }]) from rfl,
      POST_json_eval noNumber envUnset upstreamNever
        { startThrow := none, perTurnThrow := none,
          completionThrow := some "emit failed", errorEmitThrow := none }
        [{ role := some Role.user, content := some "Hi" }] rfl rfl,
      completeChatAuto_demoHi]

/-- C9 counterexample: the claim that the externally visible response is
independent of whether observability emissions succeed or throw fails at a
concrete request: with all emissions succeeding the broker returns the 200
fallback success, while with only the completion-record emission throwing
it returns a 502 error response. -/
theorem observability_counterexample :
    POST noNumber envUnset upstreamNever
        { startThrow := none, perTurnThrow := none,
          completionThrow := some "emit failed", errorEmitThrow := none } bodyHi ≠
      POST noNumber envUnset upstreamNever emitsOk bodyHi := by
  rw [POST_demoHi_emitFail, POST_demoHi_ok]
  simp

/-- C9 amended: the response is independent of failures of the per-turn
emission records — the handler wraps that loop and swallows its errors, so
the response is a function of the other three sites only — but it is not
independent of the remaining sites: after a successful completion, a
throwing completion-record emission is caught by the route's generic
handler and turns the response into the 502 error response carrying the
emission's message. -/
theorem observability_amended (tn : String → Option Int) (env : Env) (up : Upstream)
    (body : RequestBody) (e e2 : EmitBehavior)
    (hstart : e.startThrow = e2.startThrow)
    (hcomp : e.completionThrow = e2.completionThrow)
    (herr : e.errorEmitThrow = e2.errorEmitThrow) :
    POST tn env up e body = POST tn env up e2 body ∧
    (∀ m (raws : List RawMessage) result,
      e.startThrow = none → e.completionThrow = some m → e.errorEmitThrow = none →
      raws.isEmpty = false →
      completeChatAuto tn env up
          (applySystemPrompt (sanitizedMessages raws)
            (Option.map jsTrim env.AI_FOUNDRY_SYSTEM_PROMPT)) = .ok result →
      POST tn env up e (.json (some raws)) = .ok (.upstreamFailure m)) := by
  constructor
  · unfold POST
    rw [hstart, hcomp, herr]
  · intro m raws result hs hc he hie hauto
    rw [POST_json_eval tn env up e raws hs hie, hauto, hc, he]

/-- Witness for C9 amended: a throwing per-turn emission leaves the
response unchanged, and with the completion-record emission throwing the
request that would have returned the 200 fallback returns a 502. -/
theorem observability_amended_witness :
    POST noNumber envUnset upstreamNever
        { startThrow := none, perTurnThrow := some "turn boom",
          completionThrow := some "emit failed", errorEmitThrow := none } bodyHi =
      POST noNumber envUnset upstreamNever
        { startThrow := none, perTurnThrow := none,
          completionThrow := some "emit failed", errorEmitThrow := none } bodyHi ∧
    POST noNumber envUnset upstreamNever
        { startThrow := none, perTurnThrow := some "turn boom",
          completionThrow := some "emit failed", errorEmitThrow := none } bodyHi =
      .ok (.upstreamFailure "emit failed") := by
  have h := observability_amended noNumber envUnset upstreamNever bodyHi
      { startThrow := none, perTurnThrow := some "turn boom",
        completionThrow := some "emit failed", errorEmitThrow := none }
      { startThrow := none, perTurnThrow := none,
        completionThrow := some "emit failed", errorEmitThrow := none } rfl rfl rfl
  refine ⟨h.1, ?_⟩
  exact h.2 "emit failed" [{ role := some Role.user, content := some "Hi" }]
      demoHiResult rfl rfl rfl rfl completeChatAuto_demoHi
